import Mathlib

/-!
Verification of the RFantibody API job-orchestration core.

Shallow embedding of `src/rfantibody/api/models.py`, `job_manager.py`,
`pipeline.py` and `main.py`.  External effects (the wall clock, the
`uuid4` identifier generator, the file system and the three stage
subprocesses) are modelled as explicit inputs: timestamps are `Nat`
ticks, generated identifiers are passed in as arguments, and a
`PipelineEnv` records what `subprocess.run` returns for a given command
list, what `glob.glob` returns for a given pattern, and what
`os.path.exists` answers for a given path.  Each operation that the
Python code performs inside the manager lock is modelled as a single
atomic function on the manager state.
-/

namespace RFantibody

/-! ## Data model (`models.py`, `job_manager.py`) -/

/-- `JobStatus` from `models.py`: the four-valued status enumeration. -/
inductive JobStatus where
  | pending
  | running
  | completed
  | failed
deriving DecidableEq, Repr

/-- The job configuration dict built by `main.py` from an
`AntibodyDesignRequest`.  `framework_pdb` and `design_loops` are optional
(`None` in Python); `num_designs` and `diffusion_steps` are the bounded
integers of the request model. -/
structure JobConfig where
  target_pdb : String
  framework_pdb : Option String
  hotspot_residues : List String
  design_loops : Option (List String)
  num_designs : Nat
  diffusion_steps : Nat
  run_full_pipeline : Bool
deriving DecidableEq, Repr

/-- The `Job` dataclass from `job_manager.py`, with the same field
defaults (`None` for the optional fields, empty lists for the three
per-stage output lists).  Timestamps are `Nat` ticks. -/
structure Job where
  job_id : String
  status : JobStatus
  created_at : Nat
  config : JobConfig
  started_at : Option Nat := none
  completed_at : Option Nat := none
  progress : Option String := none
  error : Option String := none
  output_dir : Option String := none
  rfdiffusion_outputs : List String := []
  proteinmpnn_outputs : List String := []
  rf2_outputs : List String := []
deriving DecidableEq, Repr

/-! ## The job store (`JobManager` in `job_manager.py`)

`self.jobs` is a Python dict from id to `Job`; it is modelled as an
association list with dict-assignment semantics (`insertJob` replaces an
existing binding in place, otherwise appends).  `self._job_queue` is the
admission queue list.  `max_concurrent_jobs` defaults to 1. -/

structure JobManagerState where
  jobs : List (String × Job)
  max_concurrent_jobs : Nat
  job_queue : List String
deriving DecidableEq, Repr

/-- Python dict assignment `self.jobs[job_id] = job`. -/
def insertJob : List (String × Job) → String → Job → List (String × Job)
  | [], k, v => [(k, v)]
  | (k₀, v₀) :: rest, k, v =>
      if k₀ = k then (k, v) :: rest else (k₀, v₀) :: insertJob rest k v

/-- Python dict lookup `self.jobs.get(job_id)`. -/
def lookupJob : List (String × Job) → String → Option Job
  | [], _ => none
  | (k₀, v₀) :: rest, k => if k₀ = k then some v₀ else lookupJob rest k

/-- `JobManager.create_job` (lines 61-76 of `job_manager.py`): builds a
PENDING record, stores it under the generated identifier and appends the
identifier to the admission queue, all under the manager lock.  The
identifier (`str(uuid.uuid4())[:8]` in Python) and the clock reading
(`datetime.utcnow()`) are explicit inputs. -/
def create_job (s : JobManagerState) (job_id : String) (now : Nat)
    (config : JobConfig) : JobManagerState × Job :=
  let job : Job :=
    { job_id := job_id
      status := JobStatus.pending
      created_at := now
      config := config }
  ({ s with
      jobs := insertJob s.jobs job_id job
      job_queue := s.job_queue ++ [job_id] }, job)

/-- `JobManager.get_job`: `self.jobs.get(job_id)`. -/
def get_job (s : JobManagerState) (job_id : String) : Option Job :=
  lookupJob s.jobs job_id

/-- The RUNNING count computed inside `_job_executor` (lines 95-98):
`sum(1 for j in self.jobs.values() if j.status == JobStatus.RUNNING)`. -/
def running_count (s : JobManagerState) : Nat :=
  s.jobs.countP (fun p => p.2.status == JobStatus.running)

/-- The check-and-pop critical section of `_job_executor` (lines 93-102
of `job_manager.py`), executed under `self._lock`: count the RUNNING
records; if below `max_concurrent_jobs` and the queue is non-empty, pop
and return the head (`self._job_queue.pop(0)`), else return `none`. -/
def claim_next (s : JobManagerState) : Option String × JobManagerState :=
  if running_count s < s.max_concurrent_jobs ∧ s.job_queue ≠ [] then
    match s.job_queue with
    | [] => (none, s)
    | job_id :: rest => (some job_id, { s with job_queue := rest })
  else
    (none, s)

/-! ## The pipeline (`pipeline.py`)

Path constants.  In Python `RFANTIBODY_ROOT` is derived from
`__file__`; its concrete value is irrelevant to every claim, so it is a
fixed string here, and `os.path.join` is `joinPath`. -/

def joinPath (a b : String) : String := a ++ "/" ++ b

def RFANTIBODY_ROOT : String := "/opt/rfantibody"

def WEIGHTS_DIR : String := joinPath RFANTIBODY_ROOT "weights"

def EXAMPLES_DIR : String :=
  joinPath (joinPath (joinPath RFANTIBODY_ROOT "scripts") "examples") "example_inputs"

def JOBS_OUTPUT_DIR : String := joinPath RFANTIBODY_ROOT "jobs_output"

def DEFAULT_FRAMEWORK_PDB : String := joinPath EXAMPLES_DIR "hu-4D5-8_Fv.pdb"

def DEFAULT_DESIGN_LOOPS : List String :=
  ["L1:8-13", "L2:7", "L3:9-11", "H1:7", "H2:6", "H3:5-13"]

/-- Result of `subprocess.run(..., capture_output=True, text=True)`. -/
structure ProcResult where
  returncode : Int
  stdout : String
  stderr : String
deriving DecidableEq, Repr

/-- The external world the pipeline interacts with: `subprocess.run` on
a command list, `glob.glob` on a pattern, `os.path.exists` on a path. -/
structure PipelineEnv where
  run : List String → ProcResult
  globFiles : String → List String
  path_exists : String → Bool

/-- `ensure_output_dir` (lines 26-33): creates and returns
`JOBS_OUTPUT_DIR/job_id` (directory creation is a file-system effect;
only the returned path matters here). -/
def ensure_output_dir (job_id : String) : String :=
  joinPath JOBS_OUTPUT_DIR job_id

/-- `save_pdb_content` (lines 36-45): if the content is an existing
file-system path, return it unchanged; otherwise the content is written
to `filepath` and that path is returned. -/
def save_pdb_content (path_exists : String → Bool) (content filepath : String) :
    String :=
  if path_exists content then content else filepath

/-- Python slice `s[-n:]`: the last at-most-`n` characters of `s`. -/
def lastChars (n : Nat) (s : String) : String :=
  String.mk (s.data.drop (s.data.length - n))

/-- The RFdiffusion output prefix `os.path.join(output_dir,
"rfdiffusion", "ab_des")` (line 64). -/
def rfd_output_pre (output_dir : String) : String :=
  joinPath (joinPath output_dir "rfdiffusion") "ab_des"

/-- The RFdiffusion command list (lines 66-84 of `pipeline.py`). -/
def rfdiffusion_cmd (target_pdb framework_pdb : String)
    (hotspot_residues design_loops : List String)
    (num_designs diffusion_steps : Nat) (output_dir : String) : List String :=
  let hotspots_str := "[" ++ String.intercalate "," hotspot_residues ++ "]"
  let loops_str := "[" ++ String.intercalate "," design_loops ++ "]"
  [ "poetry", "run", "python",
    joinPath (joinPath RFANTIBODY_ROOT "scripts") "rfdiffusion_inference.py",
    "--config-name", "antibody",
    "antibody.target_pdb=" ++ target_pdb,
    "antibody.framework_pdb=" ++ framework_pdb,
    "inference.ckpt_override_path=" ++ joinPath WEIGHTS_DIR "RFdiffusion_Ab.pt",
    "ppi.hotspot_res=" ++ hotspots_str,
    "antibody.design_loops=" ++ loops_str,
    "inference.num_designs=" ++ toString num_designs,
    "inference.final_step=" ++ toString diffusion_steps,
    "diffuser.T=" ++ toString diffusion_steps,
    "inference.deterministic=True",
    "inference.output_prefix=" ++ rfd_output_pre output_dir ]

/-- `run_rfdiffusion` (lines 48-103): run the subprocess; on non-zero
exit raise `RuntimeError(f"RFdiffusion failed: {result.stderr[-500:]}")`,
otherwise glob `f"{output_prefix}*.pdb"` for the produced structures. -/
def run_rfdiffusion (env : PipelineEnv) (target_pdb framework_pdb : String)
    (hotspot_residues design_loops : List String)
    (num_designs diffusion_steps : Nat) (output_dir : String) :
    Except String (List String) :=
  let result := env.run (rfdiffusion_cmd target_pdb framework_pdb
    hotspot_residues design_loops num_designs diffusion_steps output_dir)
  if result.returncode ≠ 0 then
    Except.error ("RFdiffusion failed: " ++ lastChars 500 result.stderr)
  else
    Except.ok (env.globFiles (rfd_output_pre output_dir ++ "*.pdb"))

/-- The ProteinMPNN output directory `os.path.join(output_dir,
"proteinmpnn")` (line 119). -/
def mpnn_output_dirOf (output_dir : String) : String :=
  joinPath output_dir "proteinmpnn"

/-- The ProteinMPNN command list (lines 126-132 of `pipeline.py`). -/
def proteinmpnn_cmd (output_dir : String) : List String :=
  [ "poetry", "run", "python",
    joinPath (joinPath RFANTIBODY_ROOT "scripts") "proteinmpnn_interface_design.py",
    "-pdbdir", joinPath output_dir "proteinmpnn_input",
    "-outpdbdir", mpnn_output_dirOf output_dir,
    "-seqs_per_struct", "1" ]

/-- `run_proteinmpnn` (lines 106-151): copy the input PDBs into the
stage input directory (a file-system effect), run the subprocess; on
non-zero exit raise `RuntimeError(f"ProteinMPNN failed:
{result.stderr[-500:]}")`, otherwise glob the output directory. -/
def run_proteinmpnn (env : PipelineEnv) (input_pdbs : List String)
    (output_dir : String) : Except String (List String) :=
  let _ := input_pdbs
  let result := env.run (proteinmpnn_cmd output_dir)
  if result.returncode ≠ 0 then
    Except.error ("ProteinMPNN failed: " ++ lastChars 500 result.stderr)
  else
    Except.ok (env.globFiles (joinPath (mpnn_output_dirOf output_dir) "*.pdb"))

/-- The RF2 output directory `os.path.join(output_dir, "rf2")`. -/
def rf2_output_dirOf (output_dir : String) : String :=
  joinPath output_dir "rf2"

/-- The RF2 command list (lines 177-182 of `pipeline.py`). -/
def rf2_cmd (output_dir : String) : List String :=
  [ "poetry", "run", "python",
    joinPath (joinPath RFANTIBODY_ROOT "scripts") "rf2_predict.py",
    "input.pdb_dir=" ++ joinPath output_dir "rf2_input",
    "output.pdb_dir=" ++ rf2_output_dirOf output_dir ]

/-- `run_rf2` (lines 154-201): same shape as the other two stages, with
error text `f"RF2 failed: {result.stderr[-500:]}"`. -/
def run_rf2 (env : PipelineEnv) (input_pdbs : List String)
    (output_dir : String) : Except String (List String) :=
  let _ := input_pdbs
  let result := env.run (rf2_cmd output_dir)
  if result.returncode ≠ 0 then
    Except.error ("RF2 failed: " ++ lastChars 500 result.stderr)
  else
    Except.ok (env.globFiles (joinPath (rf2_output_dirOf output_dir) "*.pdb"))

/-- Python truthiness of `config.get("framework_pdb")`: `None` and the
empty string are falsy. -/
def truthyStr : Option String → Bool
  | none => false
  | some s => !s.isEmpty

/-- Python truthiness of `config.get("design_loops")`: `None` and the
empty list are falsy. -/
def truthyList : Option (List String) → Bool
  | none => false
  | some l => !l.isEmpty

/-- Lines 240-248 of `pipeline.py`: `framework_pdb =
config.get("framework_pdb"); if framework_pdb: framework_pdb =
save_pdb_content(framework_pdb, join(output_dir, "framework.pdb"));
else: framework_pdb = DEFAULT_FRAMEWORK_PDB`. -/
def resolve_framework_pdb (path_exists : String → Bool) (output_dir : String)
    (fw : Option String) : String :=
  if truthyStr fw then
    save_pdb_content path_exists (fw.getD "") (joinPath output_dir "framework.pdb")
  else
    DEFAULT_FRAMEWORK_PDB

/-- Line 252 of `pipeline.py`: `design_loops = config.get("design_loops")
or DEFAULT_DESIGN_LOOPS` (Python `or` yields the right operand when the
left is falsy). -/
def resolve_design_loops (dl : Option (List String)) : List String :=
  if truthyList dl then dl.getD [] else DEFAULT_DESIGN_LOOPS

/-- The result dict returned by `run_antibody_pipeline` on success
(lines 294-299). -/
structure PipelineResult where
  output_dir : String
  rfdiffusion_outputs : List String
  proteinmpnn_outputs : List String
  rf2_outputs : List String
deriving DecidableEq, Repr

/-- `run_antibody_pipeline` (lines 204-299 of `pipeline.py`),
instrumented with the list of stage runners actually invoked (second
component), in invocation order.  Control flow is exactly the source:
stage 1 always runs; stage 2 runs iff `run_full_pipeline` is truthy and
stage 1 returned a non-empty file list; stage 3 runs iff stage 2 ran and
returned a non-empty file list; a raised stage error aborts the rest. -/
def run_antibody_pipelineT (job_id : String) (config : JobConfig)
    (env : PipelineEnv) : Except String PipelineResult × List String :=
  let output_dir := ensure_output_dir job_id
  let target_pdb :=
    save_pdb_content env.path_exists config.target_pdb (joinPath output_dir "target.pdb")
  let framework_pdb :=
    resolve_framework_pdb env.path_exists output_dir config.framework_pdb
  let design_loops := resolve_design_loops config.design_loops
  match run_rfdiffusion env target_pdb framework_pdb config.hotspot_residues
      design_loops config.num_designs config.diffusion_steps output_dir with
  | Except.error e => (Except.error e, ["rfdiffusion"])
  | Except.ok rfdiffusion_outputs =>
    if config.run_full_pipeline && !rfdiffusion_outputs.isEmpty then
      match run_proteinmpnn env rfdiffusion_outputs output_dir with
      | Except.error e => (Except.error e, ["rfdiffusion", "proteinmpnn"])
      | Except.ok proteinmpnn_outputs =>
        if !proteinmpnn_outputs.isEmpty then
          match run_rf2 env proteinmpnn_outputs output_dir with
          | Except.error e =>
              (Except.error e, ["rfdiffusion", "proteinmpnn", "rf2"])
          | Except.ok rf2_outputs =>
              (Except.ok
                { output_dir := output_dir
                  rfdiffusion_outputs := rfdiffusion_outputs
                  proteinmpnn_outputs := proteinmpnn_outputs
                  rf2_outputs := rf2_outputs },
               ["rfdiffusion", "proteinmpnn", "rf2"])
        else
          (Except.ok
            { output_dir := output_dir
              rfdiffusion_outputs := rfdiffusion_outputs
              proteinmpnn_outputs := proteinmpnn_outputs
              rf2_outputs := [] },
           ["rfdiffusion", "proteinmpnn"])
    else
      (Except.ok
        { output_dir := output_dir
          rfdiffusion_outputs := rfdiffusion_outputs
          proteinmpnn_outputs := []
          rf2_outputs := [] },
       ["rfdiffusion"])

/-- The pipeline proper: result only. -/
def run_antibody_pipeline (job_id : String) (config : JobConfig)
    (env : PipelineEnv) : Except String PipelineResult :=
  (run_antibody_pipelineT job_id config env).1

/-- The stage runners invoked by the pipeline, in order. -/
def pipeline_stages (job_id : String) (config : JobConfig)
    (env : PipelineEnv) : List String :=
  (run_antibody_pipelineT job_id config env).2

/-- The exact RFdiffusion command the pipeline issues for a job: the
arguments of the stage-1 call in `run_antibody_pipeline` (lines
257-268), after input staging and default substitution. -/
def pipeline_rfd_cmd (job_id : String) (config : JobConfig)
    (env : PipelineEnv) : List String :=
  rfdiffusion_cmd
    (save_pdb_content env.path_exists config.target_pdb
      (joinPath (ensure_output_dir job_id) "target.pdb"))
    (resolve_framework_pdb env.path_exists (ensure_output_dir job_id)
      config.framework_pdb)
    config.hotspot_residues
    (resolve_design_loops config.design_loops)
    config.num_designs config.diffusion_steps (ensure_output_dir job_id)

/-! ## Job execution (`JobManager._execute_job`, lines 113-144) -/

/-- Lines 117-119: entry to RUNNING sets the start timestamp and the
initial progress message. -/
def startExecution (job : Job) (t : Nat) : Job :=
  { job with
      status := JobStatus.running
      started_at := some t
      progress := some "Starting pipeline..." }

/-- Lines 129-135: the COMPLETED transition copies the result bundle
into the record and sets the completion timestamp. -/
def completeJob (job : Job) (t : Nat) (result : PipelineResult) : Job :=
  { job with
      status := JobStatus.completed
      completed_at := some t
      output_dir := some result.output_dir
      rfdiffusion_outputs := result.rfdiffusion_outputs
      proteinmpnn_outputs := result.proteinmpnn_outputs
      rf2_outputs := result.rf2_outputs
      progress := some "Completed successfully" }

/-- Lines 139-143: the FAILED transition records the error string and
the completion timestamp; no output-list field is touched. -/
def failJob (job : Job) (t : Nat) (e : String) : Job :=
  { job with
      status := JobStatus.failed
      completed_at := some t
      error := some e
      progress := some ("Failed: " ++ e) }

/-- `_execute_job`: mark RUNNING, run the pipeline, then apply the
COMPLETED or FAILED transition depending on whether the pipeline raised.
`t_start` and `t_end` are the two `datetime.utcnow()` readings. -/
def execute_job (job : Job) (env : PipelineEnv) (t_start t_end : Nat) : Job :=
  let job' := startExecution job t_start
  match run_antibody_pipeline job.job_id job.config env with
  | Except.ok result => completeJob job' t_end result
  | Except.error e => failJob job' t_end e

/-- The single-record mutations the manager ever performs, as a step
relation: the RUNNING transition (on a PENDING record, line 106 guards
`job.status == JobStatus.PENDING`), a progress update while the
pipeline runs (`_update_progress` via the callback), and the two
terminal transitions (on the RUNNING record, from `_execute_job`). -/
inductive JobStep : Job → Job → Prop where
  | start (job : Job) (t : Nat) (h : job.status = JobStatus.pending) :
      JobStep job (startExecution job t)
  | reportProgress (job : Job) (msg : String)
      (h : job.status = JobStatus.running) :
      JobStep job { job with progress := some msg }
  | complete (job : Job) (t : Nat) (result : PipelineResult)
      (h : job.status = JobStatus.running) :
      JobStep job (completeJob job t result)
  | fail (job : Job) (t : Nat) (e : String)
      (h : job.status = JobStatus.running) :
      JobStep job (failJob job t e)

/-! ## The results endpoint (`main.py`, `get_job_results`, lines 192-214) -/

/-- The two `HTTPException` shapes raised by the results endpoint. -/
inductive ApiError where
  | notFound (detail : String)
  | badRequest (detail : String)
deriving DecidableEq, Repr

/-- `JobResultResponse` from `models.py` as populated by the endpoint. -/
structure JobResultResponse where
  job_id : String
  status : JobStatus
  output_files : List String
  rfdiffusion_outputs : List String
  proteinmpnn_outputs : List String
  rf2_outputs : List String
  error : Option String
deriving DecidableEq, Repr

/-- `get_job_results` (lines 192-214 of `main.py`): 404 for an unknown
identifier, 400 while PENDING or RUNNING, otherwise the result payload
with the three output lists and their concatenation. -/
def get_job_results (s : JobManagerState) (job_id : String) :
    Except ApiError JobResultResponse :=
  match get_job s job_id with
  | none => Except.error (ApiError.notFound ("Job " ++ job_id ++ " not found"))
  | some job =>
    if job.status = JobStatus.pending then
      Except.error (ApiError.badRequest "Job is still pending")
    else if job.status = JobStatus.running then
      Except.error (ApiError.badRequest "Job is still running")
    else
      Except.ok
        { job_id := job.job_id
          status := job.status
          output_files := job.rfdiffusion_outputs ++ job.proteinmpnn_outputs
            ++ job.rf2_outputs
          rfdiffusion_outputs := job.rfdiffusion_outputs
          proteinmpnn_outputs := job.proteinmpnn_outputs
          rf2_outputs := job.rf2_outputs
          error := job.error }

/-! ## Concrete fixtures used by witnesses and counterexamples -/

/-- A concrete well-formed configuration (the shape `main.py` builds). -/
def cfgW : JobConfig :=
  { target_pdb := "ATOM      1  N   GLY A   1"
    framework_pdb := none
    hotspot_residues := ["T305"]
    design_loops := none
    num_designs := 1
    diffusion_steps := 50
    run_full_pipeline := true }

/-- A freshly created PENDING record for `cfgW`. -/
def jobW : Job :=
  { job_id := "jw000000", status := JobStatus.pending, created_at := 0, config := cfgW }

/-- An environment in which every subprocess exits 1 with stderr
`"bad input"`. -/
def envFailRfd : PipelineEnv :=
  { run := fun _ => { returncode := 1, stdout := "", stderr := "bad input" }
    globFiles := fun _ => []
    path_exists := fun _ => false }

/-- An environment in which stage 1 succeeds (and its glob finds one
structure) while the stage-2 subprocess (recognised by its `-pdbdir`
flag) exits 1. -/
def envC1 : PipelineEnv :=
  { run := fun cmd =>
      if cmd.contains "-pdbdir" then { returncode := 1, stdout := "", stderr := "mpnn boom" }
      else { returncode := 0, stdout := "", stderr := "" }
    globFiles := fun _ => ["x.pdb"]
    path_exists := fun _ => false }

/-- An environment in which every subprocess succeeds but stage 1
produces zero output files. -/
def envEmptyStage1 : PipelineEnv :=
  { run := fun _ => { returncode := 0, stdout := "", stderr := "" }
    globFiles := fun _ => []
    path_exists := fun _ => false }

/-- An environment in which every subprocess succeeds, stage 1 produces
one structure and stage 2 produces zero output files. -/
def envEmptyStage2 : PipelineEnv :=
  { run := fun _ => { returncode := 0, stdout := "", stderr := "" }
    globFiles := fun p =>
      if p = rfd_output_pre (ensure_output_dir "jw000000") ++ "*.pdb" then ["x.pdb"] else []
    path_exists := fun _ => false }

/-- A running copy of `jobW`. -/
def runningJobW : Job := { jobW with status := JobStatus.running }

/-- A completed copy of `jobW`. -/
def doneJobW : Job := { jobW with status := JobStatus.completed }

/-- A failed copy of `jobW` as `execute_job` leaves it under `envFailRfd`. -/
def failedJobW : Job := execute_job jobW envFailRfd 3 7

/-- A store holding one queued PENDING job and nothing running. -/
def stateReady : JobManagerState :=
  { jobs := [("a0000000", jobW)], max_concurrent_jobs := 1, job_queue := ["a0000000"] }

/-- A store at capacity: one RUNNING job with limit 1, one id queued. -/
def stateBusy : JobManagerState :=
  { jobs := [("r0000000", runningJobW)], max_concurrent_jobs := 1,
    job_queue := ["b0000000"] }

/-- A store with two queued PENDING jobs, submitted `a0000000` first. -/
def stateTwo : JobManagerState :=
  { jobs := [("a0000000", jobW), ("b0000000", jobW)], max_concurrent_jobs := 1,
    job_queue := ["a0000000", "b0000000"] }

/-- The empty store (a freshly constructed `JobManager`). -/
def stEmpty : JobManagerState :=
  { jobs := [], max_concurrent_jobs := 1, job_queue := [] }

/-- A store holding one FAILED job. -/
def stateFailed : JobManagerState :=
  { jobs := [("f0000000", failedJobW)], max_concurrent_jobs := 1, job_queue := [] }

/-! ## Helper lemmas -/

theorem lookupJob_insertJob (l : List (String × Job)) (k : String) (v : Job) :
    lookupJob (insertJob l k v) k = some v := by
  induction l with
  | nil => simp [insertJob, lookupJob]
  | cons p rest ih =>
    obtain ⟨k₀, v₀⟩ := p
    by_cases h : k₀ = k
    · simp [insertJob, h, lookupJob]
    · simp [insertJob, h, lookupJob, ih]

theorem insertJob_length_of_lookup_none (l : List (String × Job)) (k : String)
    (v : Job) (h : lookupJob l k = none) :
    (insertJob l k v).length = l.length + 1 := by
  induction l with
  | nil => simp [insertJob]
  | cons p rest ih =>
    obtain ⟨k₀, v₀⟩ := p
    by_cases hk : k₀ = k
    · simp [lookupJob, hk] at h
    · simp [lookupJob, hk] at h
      simp [insertJob, hk, ih h]

theorem lastChars_length_le (n : Nat) (s : String) : (lastChars n s).length ≤ n := by
  rw [lastChars, String.length_mk, List.length_drop]
  omega

theorem lastChars_suffix (n : Nat) (s : String) :
    (lastChars n s).data <:+ s.data := by
  simp only [lastChars]
  exact List.drop_suffix _ _

theorem claim_next_some_head (s : JobManagerState) (x : String)
    (h : (claim_next s).1 = some x) : s.job_queue.head? = some x := by
  unfold claim_next at h
  by_cases hc : running_count s < s.max_concurrent_jobs ∧ s.job_queue ≠ []
  · rw [if_pos hc] at h
    cases hq : s.job_queue with
    | nil => exact absurd hq hc.2
    | cons q0 rest =>
      simp only [hq] at h
      simp only [List.head?]
      simpa using h
  · rw [if_neg hc] at h
    exact Option.noConfusion h

theorem stringLength_append (a b : String) :
    (a ++ b).length = a.length + b.length := by
  rw [show a ++ b = String.mk (a.data ++ b.data) from rfl, String.length_mk,
    List.length_append]
  rfl

theorem append_ne_empty_left (a b : String) (h : a.length ≠ 0) : a ++ b ≠ "" := by
  intro he
  have := congrArg String.length he
  rw [stringLength_append, String.length_empty] at this
  exact h (by omega)

theorem isEmpty_false_of_ne_nil {α : Type} {l : List α} (h : l ≠ []) :
    l.isEmpty = false := by
  cases l with
  | nil => exact absurd rfl h
  | cons a t => rfl

/-- Control-flow characterization of the pipeline when the stage-1
subprocess exits non-zero. -/
theorem pipelineT_rfd_fail (job_id : String) (config : JobConfig)
    (env : PipelineEnv)
    (h : (env.run (pipeline_rfd_cmd job_id config env)).returncode ≠ 0) :
    run_antibody_pipelineT job_id config env =
      (Except.error ("RFdiffusion failed: " ++
          lastChars 500 (env.run (pipeline_rfd_cmd job_id config env)).stderr),
        ["rfdiffusion"]) := by
  simp only [pipeline_rfd_cmd] at h
  simp [run_antibody_pipelineT, run_rfdiffusion, pipeline_rfd_cmd, h]

/-- Control-flow characterization when stage 1 succeeds but stage 2 does
not run (partial-pipeline mode or an empty stage-1 output list). -/
theorem pipelineT_stop_after_rfd (job_id : String) (config : JobConfig)
    (env : PipelineEnv)
    (h : (env.run (pipeline_rfd_cmd job_id config env)).returncode = 0)
    (h2 : (config.run_full_pipeline &&
      !(env.globFiles
        (rfd_output_pre (ensure_output_dir job_id) ++ "*.pdb")).isEmpty) = false) :
    run_antibody_pipelineT job_id config env =
      (Except.ok
        { output_dir := ensure_output_dir job_id
          rfdiffusion_outputs :=
            env.globFiles (rfd_output_pre (ensure_output_dir job_id) ++ "*.pdb")
          proteinmpnn_outputs := []
          rf2_outputs := [] },
        ["rfdiffusion"]) := by
  simp only [pipeline_rfd_cmd] at h
  simp [run_antibody_pipelineT, run_rfdiffusion, h, h2]

/-- Control-flow characterization when stage 1 succeeds with outputs,
the full pipeline was requested, and the stage-2 subprocess exits
non-zero. -/
theorem pipelineT_mpnn_fail (job_id : String) (config : JobConfig)
    (env : PipelineEnv)
    (h : (env.run (pipeline_rfd_cmd job_id config env)).returncode = 0)
    (hfull : config.run_full_pipeline = true)
    (hne : env.globFiles (rfd_output_pre (ensure_output_dir job_id) ++ "*.pdb") ≠ [])
    (h4 : (env.run (proteinmpnn_cmd (ensure_output_dir job_id))).returncode ≠ 0) :
    run_antibody_pipelineT job_id config env =
      (Except.error ("ProteinMPNN failed: " ++
          lastChars 500 (env.run (proteinmpnn_cmd (ensure_output_dir job_id))).stderr),
        ["rfdiffusion", "proteinmpnn"]) := by
  simp only [pipeline_rfd_cmd] at h
  simp [run_antibody_pipelineT, run_rfdiffusion, run_proteinmpnn, h, hfull,
    isEmpty_false_of_ne_nil hne, h4]

/-- Control-flow characterization when stages 1 and 2 succeed but stage
2 produces zero output files: stage 3 is skipped, result is success. -/
theorem pipelineT_stop_after_mpnn (job_id : String) (config : JobConfig)
    (env : PipelineEnv)
    (h : (env.run (pipeline_rfd_cmd job_id config env)).returncode = 0)
    (hfull : config.run_full_pipeline = true)
    (hne : env.globFiles (rfd_output_pre (ensure_output_dir job_id) ++ "*.pdb") ≠ [])
    (h4 : (env.run (proteinmpnn_cmd (ensure_output_dir job_id))).returncode = 0)
    (h5 : env.globFiles
        (joinPath (mpnn_output_dirOf (ensure_output_dir job_id)) "*.pdb") = []) :
    run_antibody_pipelineT job_id config env =
      (Except.ok
        { output_dir := ensure_output_dir job_id
          rfdiffusion_outputs :=
            env.globFiles (rfd_output_pre (ensure_output_dir job_id) ++ "*.pdb")
          proteinmpnn_outputs := []
          rf2_outputs := [] },
        ["rfdiffusion", "proteinmpnn"]) := by
  simp only [pipeline_rfd_cmd] at h
  simp [run_antibody_pipelineT, run_rfdiffusion, run_proteinmpnn, h, hfull,
    isEmpty_false_of_ne_nil hne, h4, h5]

/-- Control-flow characterization when stages 1 and 2 succeed with
outputs and the stage-3 subprocess exits non-zero. -/
theorem pipelineT_rf2_fail (job_id : String) (config : JobConfig)
    (env : PipelineEnv)
    (h : (env.run (pipeline_rfd_cmd job_id config env)).returncode = 0)
    (hfull : config.run_full_pipeline = true)
    (hne : env.globFiles (rfd_output_pre (ensure_output_dir job_id) ++ "*.pdb") ≠ [])
    (h4 : (env.run (proteinmpnn_cmd (ensure_output_dir job_id))).returncode = 0)
    (h5 : env.globFiles
        (joinPath (mpnn_output_dirOf (ensure_output_dir job_id)) "*.pdb") ≠ [])
    (h6 : (env.run (rf2_cmd (ensure_output_dir job_id))).returncode ≠ 0) :
    run_antibody_pipelineT job_id config env =
      (Except.error ("RF2 failed: " ++
          lastChars 500 (env.run (rf2_cmd (ensure_output_dir job_id))).stderr),
        ["rfdiffusion", "proteinmpnn", "rf2"]) := by
  simp only [pipeline_rfd_cmd] at h
  simp [run_antibody_pipelineT, run_rfdiffusion, run_proteinmpnn, run_rf2, h,
    hfull, isEmpty_false_of_ne_nil hne, h4, isEmpty_false_of_ne_nil h5, h6]

/-- `execute_job` in terms of the pipeline outcome: failure case. -/
theorem execute_job_of_error (job : Job) (env : PipelineEnv) (t1 t2 : Nat)
    (e : String)
    (h : run_antibody_pipeline job.job_id job.config env = Except.error e) :
    execute_job job env t1 t2 = failJob (startExecution job t1) t2 e := by
  simp only [execute_job, h]

/-- `execute_job` in terms of the pipeline outcome: success case. -/
theorem execute_job_of_ok (job : Job) (env : PipelineEnv) (t1 t2 : Nat)
    (r : PipelineResult)
    (h : run_antibody_pipeline job.job_id job.config env = Except.ok r) :
    execute_job job env t1 t2 = completeJob (startExecution job t1) t2 r := by
  simp only [execute_job, h]

/-! ## Claim theorems -/

/-- C2: for every store state, the check-and-pop step returns `none`
when the RUNNING count has reached the concurrency limit or the
admission queue is empty (leaving the state unchanged); otherwise it
pops and returns the oldest queued identifier, leaving the record table
and the limit untouched.  The count-and-pop is a single atomic state
transformation (the Python code performs it under `self._lock`, the same
lock `create_job` mutates under). -/
theorem c2_claim_next_spec (s : JobManagerState) :
    ((s.max_concurrent_jobs ≤ running_count s ∨ s.job_queue = []) →
      claim_next s = (none, s)) ∧
    (running_count s < s.max_concurrent_jobs → s.job_queue ≠ [] →
      (claim_next s).1 = s.job_queue.head? ∧
      (claim_next s).2.job_queue = s.job_queue.tail ∧
      (claim_next s).2.jobs = s.jobs ∧
      (claim_next s).2.max_concurrent_jobs = s.max_concurrent_jobs) := by
  constructor
  · intro h
    unfold claim_next
    rw [if_neg]
    rcases h with h | h
    · exact fun hc => absurd hc.1 (Nat.not_lt.mpr h)
    · exact fun hc => hc.2 h
  · intro h1 h2
    cases hq : s.job_queue with
    | nil => exact absurd hq h2
    | cons q0 rest =>
      unfold claim_next
      rw [if_pos ⟨h1, h2⟩]
      simp [hq]

/-- C2 witness: at a concrete store at capacity `claim_next` yields
nothing; at a concrete idle store with one queued id it pops that id. -/
theorem c2_claim_next_spec_witness :
    claim_next stateBusy = (none, stateBusy) ∧
    (claim_next stateReady).1 = some "a0000000" := by
  refine ⟨(c2_claim_next_spec stateBusy).1 (Or.inl (by decide)), ?_⟩
  have h := (c2_claim_next_spec stateReady).2 (by decide) (by decide)
  exact h.1.trans rfl

/-- C6: submission appends to the tail of the admission queue and
`claim_next` pops from the head, so for any store state in which
identifier `a` sits strictly earlier in the queue than identifier `b`,
the next claim never yields `b`; jobs enter execution in FIFO submission
order. -/
theorem c6_fifo_order (s : JobManagerState) (a b : String)
    (h : s.job_queue.indexOf a < s.job_queue.indexOf b) :
    (claim_next s).1 ≠ some b ∧
    ∀ (job_id : String) (now : Nat) (cfg : JobConfig),
      ((create_job s job_id now cfg).1).job_queue = s.job_queue ++ [job_id] := by
  constructor
  · intro hb
    have hhead := claim_next_some_head s b hb
    cases hq : s.job_queue with
    | nil => rw [hq] at hhead; exact Option.noConfusion hhead
    | cons q0 rest =>
      rw [hq] at hhead h
      have hq0 : q0 = b := by simpa using hhead
      rw [hq0, List.indexOf_cons_self] at h
      exact Nat.not_lt_zero _ h
  · intro job_id now cfg
    rfl

/-- C6 witness: with `a0000000` queued ahead of `b0000000`, the claim
cannot yield `b0000000`, and a new submission goes to the tail. -/
theorem c6_fifo_order_witness :
    (claim_next stateTwo).1 ≠ some "b0000000" ∧
    ((create_job stateTwo "c0000000" 2 cfgW).1).job_queue =
      ["a0000000", "b0000000", "c0000000"] := by
  have h := c6_fifo_order stateTwo "a0000000" "b0000000" (by decide)
  exact ⟨h.1, (h.2 "c0000000" 2 cfgW).trans rfl⟩

/-- C7 counterexample: the store performs no collision check on the
externally generated 8-character identifier (`str(uuid.uuid4())[:8]` in
the source); when the generator repeats a value, the second submission
returns the same identifier as the first and silently overwrites the
first record (the stored record after the second submission is the
second one), so identifiers are not unique across the store lifetime. -/
theorem c7_counterexample :
    ((create_job stEmpty "abc12345" 0 cfgW).2).job_id =
      ((create_job (create_job stEmpty "abc12345" 0 cfgW).1 "abc12345" 1 cfgW).2).job_id ∧
    get_job ((create_job (create_job stEmpty "abc12345" 0 cfgW).1 "abc12345" 1 cfgW).1)
        "abc12345" =
      some ((create_job (create_job stEmpty "abc12345" 0 cfgW).1 "abc12345" 1 cfgW).2) ∧
    ((create_job stEmpty "abc12345" 0 cfgW).2).created_at ≠
      ((create_job (create_job stEmpty "abc12345" 0 cfgW).1 "abc12345" 1 cfgW).2).created_at := by
  refine ⟨rfl, rfl, ?_⟩
  decide

/-- C7 amended: immediately after a submission the returned record is
PENDING, carries the generated identifier, and is queryable through
`get_job`; when the generated identifier is fresh (not already bound in
the store) the store grows by exactly one record.  Uniqueness of the
returned identifiers themselves depends on the external `uuid4`
generator never repeating a truncated value and is not enforced by the
store. -/
theorem c7_submit_pending_queryable (s : JobManagerState) (job_id : String)
    (now : Nat) (cfg : JobConfig) :
    ((create_job s job_id now cfg).2).status = JobStatus.pending ∧
    ((create_job s job_id now cfg).2).job_id = job_id ∧
    get_job ((create_job s job_id now cfg).1) job_id =
      some ((create_job s job_id now cfg).2) ∧
    (get_job s job_id = none →
      ((create_job s job_id now cfg).1).jobs.length = s.jobs.length + 1) := by
  refine ⟨rfl, rfl, ?_, ?_⟩
  · exact lookupJob_insertJob s.jobs job_id _
  · intro h
    exact insertJob_length_of_lookup_none s.jobs job_id _ h

/-- C7 amended witness: a fresh submission into the empty store. -/
theorem c7_submit_pending_queryable_witness :
    ((create_job stEmpty "abc12345" 0 cfgW).2).status = JobStatus.pending ∧
    ((create_job stEmpty "abc12345" 0 cfgW).1).jobs.length = 1 := by
  have h := c7_submit_pending_queryable stEmpty "abc12345" 0 cfgW
  exact ⟨h.1, (h.2.2.2 rfl).trans rfl⟩

/-- C8: a result query for an identifier unknown to the store signals
the not-found condition, and a result query for a PENDING or RUNNING
record signals the invalid-state condition; in each case an
`Except.error` is returned, so no result payload (no output lists) is
produced. -/
theorem c8_results_rejections (s : JobManagerState) (job_id : String) :
    (get_job s job_id = none →
      get_job_results s job_id =
        Except.error (ApiError.notFound ("Job " ++ job_id ++ " not found"))) ∧
    (∀ job : Job, get_job s job_id = some job →
      (job.status = JobStatus.pending →
        get_job_results s job_id =
          Except.error (ApiError.badRequest "Job is still pending")) ∧
      (job.status = JobStatus.running →
        get_job_results s job_id =
          Except.error (ApiError.badRequest "Job is still running"))) := by
  constructor
  · intro h
    simp [get_job_results, h]
  · intro job hjob
    constructor
    · intro hst
      simp [get_job_results, hjob, hst]
    · intro hst
      simp [get_job_results, hjob, hst]

/-- C8 witness: the unknown identifier `zzzzzzzz` is rejected not-found,
and the PENDING job in `stateReady` is rejected invalid-state. -/
theorem c8_results_rejections_witness :
    get_job_results stateReady "zzzzzzzz" =
      Except.error (ApiError.notFound ("Job " ++ "zzzzzzzz" ++ " not found")) ∧
    get_job_results stateReady "a0000000" =
      Except.error (ApiError.badRequest "Job is still pending") := by
  refine ⟨(c8_results_rejections stateReady "zzzzzzzz").1 (by decide), ?_⟩
  exact (((c8_results_rejections stateReady "a0000000").2 jobW (by decide)).1) rfl

/-- C9: a result query against a FAILED record succeeds: it returns the
payload carrying the three output lists, their concatenation, and the
record error message; only PENDING and RUNNING are rejected. -/
theorem c9_results_failed_ok (s : JobManagerState) (job_id : String) (job : Job)
    (hget : get_job s job_id = some job) (hst : job.status = JobStatus.failed) :
    get_job_results s job_id = Except.ok
      { job_id := job.job_id
        status := job.status
        output_files := job.rfdiffusion_outputs ++ job.proteinmpnn_outputs
          ++ job.rf2_outputs
        rfdiffusion_outputs := job.rfdiffusion_outputs
        proteinmpnn_outputs := job.proteinmpnn_outputs
        rf2_outputs := job.rf2_outputs
        error := job.error } := by
  simp [get_job_results, hget, hst]

/-- C9 witness: the concrete FAILED job in `stateFailed` yields a
payload, not an error. -/
theorem c9_results_failed_ok_witness :
    get_job_results stateFailed "f0000000" = Except.ok
      { job_id := failedJobW.job_id
        status := failedJobW.status
        output_files := failedJobW.rfdiffusion_outputs
          ++ failedJobW.proteinmpnn_outputs ++ failedJobW.rf2_outputs
        rfdiffusion_outputs := failedJobW.rfdiffusion_outputs
        proteinmpnn_outputs := failedJobW.proteinmpnn_outputs
        rf2_outputs := failedJobW.rf2_outputs
        error := failedJobW.error } :=
  c9_results_failed_ok stateFailed "f0000000" failedJobW rfl rfl

/-- C1 counterexample: under `envC1` stage 1 succeeds and its glob finds
the file `x.pdb` (the stage-2 runner is then invoked, as the trace
shows), the stage-2 subprocess fails, and the FAILED record's stage-1
output list is nevertheless empty — not the non-empty list the claim
requires — because `_execute_job` only copies output lists into the
record on the success path. -/
theorem c1_counterexample :
    pipeline_stages jobW.job_id jobW.config envC1 = ["rfdiffusion", "proteinmpnn"] ∧
    envC1.globFiles (rfd_output_pre (ensure_output_dir jobW.job_id) ++ "*.pdb") =
      ["x.pdb"] ∧
    run_antibody_pipeline jobW.job_id jobW.config envC1 =
      Except.error "ProteinMPNN failed: mpnn boom" ∧
    (execute_job jobW envC1 0 1).status = JobStatus.failed ∧
    (execute_job jobW envC1 0 1).rfdiffusion_outputs = [] :=
  ⟨rfl, rfl, rfl, rfl, rfl⟩

/-- C1 amended: when the pipeline fails, the FAILED record keeps the
failure summary as its progress message and the error description in its
error field, but its three output lists are exactly what they were
before execution began (empty for a freshly created record): the runner
never writes partial per-stage lists into the record. -/
theorem c1_failed_outputs_unchanged (job : Job) (env : PipelineEnv)
    (t1 t2 : Nat) (e : String)
    (h : run_antibody_pipeline job.job_id job.config env = Except.error e) :
    (execute_job job env t1 t2).status = JobStatus.failed ∧
    (execute_job job env t1 t2).error = some e ∧
    (execute_job job env t1 t2).progress = some ("Failed: " ++ e) ∧
    (execute_job job env t1 t2).completed_at = some t2 ∧
    (execute_job job env t1 t2).rfdiffusion_outputs = job.rfdiffusion_outputs ∧
    (execute_job job env t1 t2).proteinmpnn_outputs = job.proteinmpnn_outputs ∧
    (execute_job job env t1 t2).rf2_outputs = job.rf2_outputs := by
  rw [execute_job_of_error job env t1 t2 e h]
  exact ⟨rfl, rfl, rfl, rfl, rfl, rfl, rfl⟩

/-- C1 amended witness: the concrete stage-2 failure under `envC1`. -/
theorem c1_failed_outputs_unchanged_witness :
    (execute_job jobW envC1 0 1).status = JobStatus.failed ∧
    (execute_job jobW envC1 0 1).error = some "ProteinMPNN failed: mpnn boom" ∧
    (execute_job jobW envC1 0 1).rfdiffusion_outputs = jobW.rfdiffusion_outputs := by
  have h := c1_failed_outputs_unchanged jobW envC1 0 1
    "ProteinMPNN failed: mpnn boom" rfl
  exact ⟨h.1, h.2.1, h.2.2.2.2.1⟩

/-- C3: whenever a stage subprocess exits non-zero, the pipeline fails
immediately — the invoked-stage trace stops at the failing stage — the
job reaches FAILED, and the recorded error message is non-empty, bounded
by the stage label length plus 500, and its excerpt of the captured
error stream is a suffix of that stream of length at most 500. -/
theorem c3_stage_failure (env : PipelineEnv) (job : Job) (t1 t2 : Nat) :
    ((env.run (pipeline_rfd_cmd job.job_id job.config env)).returncode ≠ 0 →
      pipeline_stages job.job_id job.config env = ["rfdiffusion"] ∧
      ∃ msg : String,
        msg = "RFdiffusion failed: " ++
          lastChars 500 (env.run (pipeline_rfd_cmd job.job_id job.config env)).stderr ∧
        run_antibody_pipeline job.job_id job.config env = Except.error msg ∧
        (execute_job job env t1 t2).status = JobStatus.failed ∧
        (execute_job job env t1 t2).error = some msg ∧
        msg ≠ "" ∧
        msg.length ≤ "RFdiffusion failed: ".length + 500 ∧
        (lastChars 500 (env.run (pipeline_rfd_cmd job.job_id job.config env)).stderr).data <:+
          (env.run (pipeline_rfd_cmd job.job_id job.config env)).stderr.data) ∧
    ((env.run (pipeline_rfd_cmd job.job_id job.config env)).returncode = 0 →
      job.config.run_full_pipeline = true →
      env.globFiles (rfd_output_pre (ensure_output_dir job.job_id) ++ "*.pdb") ≠ [] →
      (env.run (proteinmpnn_cmd (ensure_output_dir job.job_id))).returncode ≠ 0 →
      pipeline_stages job.job_id job.config env = ["rfdiffusion", "proteinmpnn"] ∧
      ∃ msg : String,
        msg = "ProteinMPNN failed: " ++
          lastChars 500 (env.run (proteinmpnn_cmd (ensure_output_dir job.job_id))).stderr ∧
        run_antibody_pipeline job.job_id job.config env = Except.error msg ∧
        (execute_job job env t1 t2).status = JobStatus.failed ∧
        (execute_job job env t1 t2).error = some msg ∧
        msg ≠ "" ∧
        msg.length ≤ "ProteinMPNN failed: ".length + 500 ∧
        (lastChars 500 (env.run (proteinmpnn_cmd (ensure_output_dir job.job_id))).stderr).data <:+
          (env.run (proteinmpnn_cmd (ensure_output_dir job.job_id))).stderr.data) ∧
    ((env.run (pipeline_rfd_cmd job.job_id job.config env)).returncode = 0 →
      job.config.run_full_pipeline = true →
      env.globFiles (rfd_output_pre (ensure_output_dir job.job_id) ++ "*.pdb") ≠ [] →
      (env.run (proteinmpnn_cmd (ensure_output_dir job.job_id))).returncode = 0 →
      env.globFiles (joinPath (mpnn_output_dirOf (ensure_output_dir job.job_id)) "*.pdb") ≠ [] →
      (env.run (rf2_cmd (ensure_output_dir job.job_id))).returncode ≠ 0 →
      pipeline_stages job.job_id job.config env = ["rfdiffusion", "proteinmpnn", "rf2"] ∧
      ∃ msg : String,
        msg = "RF2 failed: " ++
          lastChars 500 (env.run (rf2_cmd (ensure_output_dir job.job_id))).stderr ∧
        run_antibody_pipeline job.job_id job.config env = Except.error msg ∧
        (execute_job job env t1 t2).status = JobStatus.failed ∧
        (execute_job job env t1 t2).error = some msg ∧
        msg ≠ "" ∧
        msg.length ≤ "RF2 failed: ".length + 500 ∧
        (lastChars 500 (env.run (rf2_cmd (ensure_output_dir job.job_id))).stderr).data <:+
          (env.run (rf2_cmd (ensure_output_dir job.job_id))).stderr.data) := by
  refine ⟨?_, ?_, ?_⟩
  · intro h1
    have hT := pipelineT_rfd_fail job.job_id job.config env h1
    have hpipe : run_antibody_pipeline job.job_id job.config env =
        Except.error ("RFdiffusion failed: " ++
          lastChars 500 (env.run (pipeline_rfd_cmd job.job_id job.config env)).stderr) := by
      unfold run_antibody_pipeline
      rw [hT]
    have hexec := execute_job_of_error job env t1 t2 _ hpipe
    refine ⟨by unfold pipeline_stages; rw [hT], _, rfl, hpipe, ?_, ?_, ?_, ?_, ?_⟩
    · rw [hexec]; rfl
    · rw [hexec]; rfl
    · exact append_ne_empty_left _ _ (by decide)
    · rw [stringLength_append]
      exact Nat.add_le_add_left (lastChars_length_le 500 _) _
    · exact lastChars_suffix 500 _
  · intro h1 hfull hne h4
    have hT := pipelineT_mpnn_fail job.job_id job.config env h1 hfull hne h4
    have hpipe : run_antibody_pipeline job.job_id job.config env =
        Except.error ("ProteinMPNN failed: " ++
          lastChars 500 (env.run (proteinmpnn_cmd (ensure_output_dir job.job_id))).stderr) := by
      unfold run_antibody_pipeline
      rw [hT]
    have hexec := execute_job_of_error job env t1 t2 _ hpipe
    refine ⟨by unfold pipeline_stages; rw [hT], _, rfl, hpipe, ?_, ?_, ?_, ?_, ?_⟩
    · rw [hexec]; rfl
    · rw [hexec]; rfl
    · exact append_ne_empty_left _ _ (by decide)
    · rw [stringLength_append]
      exact Nat.add_le_add_left (lastChars_length_le 500 _) _
    · exact lastChars_suffix 500 _
  · intro h1 hfull hne h4 h5 h6
    have hT := pipelineT_rf2_fail job.job_id job.config env h1 hfull hne h4 h5 h6
    have hpipe : run_antibody_pipeline job.job_id job.config env =
        Except.error ("RF2 failed: " ++
          lastChars 500 (env.run (rf2_cmd (ensure_output_dir job.job_id))).stderr) := by
      unfold run_antibody_pipeline
      rw [hT]
    have hexec := execute_job_of_error job env t1 t2 _ hpipe
    refine ⟨by unfold pipeline_stages; rw [hT], _, rfl, hpipe, ?_, ?_, ?_, ?_, ?_⟩
    · rw [hexec]; rfl
    · rw [hexec]; rfl
    · exact append_ne_empty_left _ _ (by decide)
    · rw [stringLength_append]
      exact Nat.add_le_add_left (lastChars_length_le 500 _) _
    · exact lastChars_suffix 500 _

/-- C3 witness: the stage-1 subprocess exits 1 with stderr `bad input`
under `envFailRfd`; the job fails with that text in its error message
and no later stage is invoked. -/
theorem c3_stage_failure_witness :
    pipeline_stages jobW.job_id jobW.config envFailRfd = ["rfdiffusion"] ∧
    (execute_job jobW envFailRfd 0 1).status = JobStatus.failed ∧
    (execute_job jobW envFailRfd 0 1).error =
      some "RFdiffusion failed: bad input" := by
  obtain ⟨hstages, msg, hmsg, hpipe, hfailed, herr, hne, hlen, hsuf⟩ :=
    (c3_stage_failure envFailRfd jobW 0 1).1 (by decide)
  exact ⟨hstages, hfailed, by rw [herr, hmsg]; rfl⟩

/-- C4: if a completed stage yields zero output files, the later stages
are skipped (the invoked-stage trace stops), their output lists are
empty, and the pipeline returns success, so the job reaches COMPLETED,
not FAILED. -/
theorem c4_zero_outputs_completed (env : PipelineEnv) (job : Job) (t1 t2 : Nat) :
    ((env.run (pipeline_rfd_cmd job.job_id job.config env)).returncode = 0 →
      job.config.run_full_pipeline = true →
      env.globFiles (rfd_output_pre (ensure_output_dir job.job_id) ++ "*.pdb") = [] →
      pipeline_stages job.job_id job.config env = ["rfdiffusion"] ∧
      run_antibody_pipeline job.job_id job.config env = Except.ok
        { output_dir := ensure_output_dir job.job_id
          rfdiffusion_outputs := []
          proteinmpnn_outputs := []
          rf2_outputs := [] } ∧
      (execute_job job env t1 t2).status = JobStatus.completed ∧
      (execute_job job env t1 t2).rfdiffusion_outputs = [] ∧
      (execute_job job env t1 t2).proteinmpnn_outputs = [] ∧
      (execute_job job env t1 t2).rf2_outputs = []) ∧
    ((env.run (pipeline_rfd_cmd job.job_id job.config env)).returncode = 0 →
      job.config.run_full_pipeline = true →
      env.globFiles (rfd_output_pre (ensure_output_dir job.job_id) ++ "*.pdb") ≠ [] →
      (env.run (proteinmpnn_cmd (ensure_output_dir job.job_id))).returncode = 0 →
      env.globFiles (joinPath (mpnn_output_dirOf (ensure_output_dir job.job_id)) "*.pdb") = [] →
      pipeline_stages job.job_id job.config env = ["rfdiffusion", "proteinmpnn"] ∧
      run_antibody_pipeline job.job_id job.config env = Except.ok
        { output_dir := ensure_output_dir job.job_id
          rfdiffusion_outputs :=
            env.globFiles (rfd_output_pre (ensure_output_dir job.job_id) ++ "*.pdb")
          proteinmpnn_outputs := []
          rf2_outputs := [] } ∧
      (execute_job job env t1 t2).status = JobStatus.completed ∧
      (execute_job job env t1 t2).rfdiffusion_outputs =
        env.globFiles (rfd_output_pre (ensure_output_dir job.job_id) ++ "*.pdb") ∧
      (execute_job job env t1 t2).proteinmpnn_outputs = [] ∧
      (execute_job job env t1 t2).rf2_outputs = []) := by
  constructor
  · intro h1 hfull hglob
    have h2 : (job.config.run_full_pipeline &&
        !(env.globFiles
          (rfd_output_pre (ensure_output_dir job.job_id) ++ "*.pdb")).isEmpty) = false := by
      rw [hglob]
      simp
    have hT := pipelineT_stop_after_rfd job.job_id job.config env h1 h2
    rw [hglob] at hT
    have hpipe : run_antibody_pipeline job.job_id job.config env = Except.ok
        { output_dir := ensure_output_dir job.job_id
          rfdiffusion_outputs := []
          proteinmpnn_outputs := []
          rf2_outputs := [] } := by
      unfold run_antibody_pipeline
      rw [hT]
    have hexec := execute_job_of_ok job env t1 t2 _ hpipe
    refine ⟨by unfold pipeline_stages; rw [hT], hpipe, ?_, ?_, ?_, ?_⟩ <;>
      rw [hexec] <;> rfl
  · intro h1 hfull hne h4 h5
    have hT := pipelineT_stop_after_mpnn job.job_id job.config env h1 hfull hne h4 h5
    have hpipe : run_antibody_pipeline job.job_id job.config env = Except.ok
        { output_dir := ensure_output_dir job.job_id
          rfdiffusion_outputs :=
            env.globFiles (rfd_output_pre (ensure_output_dir job.job_id) ++ "*.pdb")
          proteinmpnn_outputs := []
          rf2_outputs := [] } := by
      unfold run_antibody_pipeline
      rw [hT]
    have hexec := execute_job_of_ok job env t1 t2 _ hpipe
    refine ⟨by unfold pipeline_stages; rw [hT], hpipe, ?_, ?_, ?_, ?_⟩ <;>
      rw [hexec] <;> rfl

/-- C4 witness: under `envEmptyStage1` stage 1 succeeds with zero
outputs and the job completes after stage 1 alone; under
`envEmptyStage2` stage 2 succeeds with zero outputs and the job
completes without stage 3. -/
theorem c4_zero_outputs_completed_witness :
    (execute_job jobW envEmptyStage1 0 1).status = JobStatus.completed ∧
    pipeline_stages jobW.job_id jobW.config envEmptyStage1 = ["rfdiffusion"] ∧
    (execute_job jobW envEmptyStage2 0 1).status = JobStatus.completed ∧
    pipeline_stages jobW.job_id jobW.config envEmptyStage2 =
      ["rfdiffusion", "proteinmpnn"] ∧
    (execute_job jobW envEmptyStage2 0 1).rf2_outputs = [] := by
  have hA := (c4_zero_outputs_completed envEmptyStage1 jobW 0 1).1
    (by decide) rfl rfl
  have hB := (c4_zero_outputs_completed envEmptyStage2 jobW 0 1).2
    (by decide) rfl (by decide) (by decide) (by decide)
  exact ⟨hA.2.2.1, hA.1, hB.2.2.1, hB.1, hB.2.2.2.2.2⟩

/-- C5: the status enumeration has exactly the four values PENDING,
RUNNING, COMPLETED, FAILED; every status-changing step of the manager
goes PENDING to RUNNING (setting the start timestamp and an initial
progress message) or RUNNING to a terminal status (setting the
completion timestamp); no step leaves a terminal status; and
`execute_job` on a PENDING record is the composition of the RUNNING
entry step with one terminal step. -/
theorem c5_state_machine :
    (∀ st : JobStatus, st = JobStatus.pending ∨ st = JobStatus.running ∨
      st = JobStatus.completed ∨ st = JobStatus.failed) ∧
    (∀ j j' : Job, JobStep j j' → j.status ≠ j'.status →
      (j.status = JobStatus.pending ∧ j'.status = JobStatus.running ∧
        j'.started_at ≠ none ∧ j'.progress ≠ none) ∨
      (j.status = JobStatus.running ∧
        (j'.status = JobStatus.completed ∨ j'.status = JobStatus.failed) ∧
        j'.completed_at ≠ none)) ∧
    (∀ j j' : Job,
      j.status = JobStatus.completed ∨ j.status = JobStatus.failed →
      ¬ JobStep j j') ∧
    (∀ (job : Job) (env : PipelineEnv) (t1 t2 : Nat),
      job.status = JobStatus.pending →
      JobStep job (startExecution job t1) ∧
      JobStep (startExecution job t1) (execute_job job env t1 t2)) := by
  refine ⟨?_, ?_, ?_, ?_⟩
  · intro st
    cases st with
    | pending => exact Or.inl rfl
    | running => exact Or.inr (Or.inl rfl)
    | completed => exact Or.inr (Or.inr (Or.inl rfl))
    | failed => exact Or.inr (Or.inr (Or.inr rfl))
  · intro j j' hstep hne
    cases hstep with
    | start t h =>
      exact Or.inl ⟨h, rfl, Option.noConfusion, Option.noConfusion⟩
    | reportProgress msg h => exact absurd rfl hne
    | complete t r h =>
      exact Or.inr ⟨h, Or.inl rfl, Option.noConfusion⟩
    | fail t e h =>
      exact Or.inr ⟨h, Or.inr rfl, Option.noConfusion⟩
  · intro j j' hterm hstep
    cases hstep with
    | start t h =>
      rcases hterm with ht | ht <;> rw [h] at ht <;> exact JobStatus.noConfusion ht
    | reportProgress msg h =>
      rcases hterm with ht | ht <;> rw [h] at ht <;> exact JobStatus.noConfusion ht
    | complete t r h =>
      rcases hterm with ht | ht <;> rw [h] at ht <;> exact JobStatus.noConfusion ht
    | fail t e h =>
      rcases hterm with ht | ht <;> rw [h] at ht <;> exact JobStatus.noConfusion ht
  · intro job env t1 t2 h
    refine ⟨JobStep.start job t1 h, ?_⟩
    unfold execute_job
    cases hp : run_antibody_pipeline job.job_id job.config env with
    | ok r => exact JobStep.complete (startExecution job t1) t2 r rfl
    | error e => exact JobStep.fail (startExecution job t1) t2 e rfl

/-- C5 witness: no manager step applies to a COMPLETED record. -/
theorem c5_state_machine_witness : ¬ JobStep doneJobW runningJobW :=
  c5_state_machine.2.2.1 doneJobW runningJobW (Or.inl rfl)

/-- C10: an empty framework-structure string and an empty design-loop
list are treated by the pipeline exactly like omitted fields: the whole
pipeline run is unchanged, and the resolved values are the built-in
default framework `hu-4D5-8_Fv.pdb` and the built-in default loop
list. -/
theorem c10_empty_equals_omitted (env : PipelineEnv) (job_id : String)
    (cfg : JobConfig) :
    run_antibody_pipelineT job_id { cfg with framework_pdb := some "" } env =
      run_antibody_pipelineT job_id { cfg with framework_pdb := none } env ∧
    run_antibody_pipelineT job_id { cfg with design_loops := some [] } env =
      run_antibody_pipelineT job_id { cfg with design_loops := none } env ∧
    resolve_framework_pdb env.path_exists (ensure_output_dir job_id) (some "") =
      DEFAULT_FRAMEWORK_PDB ∧
    resolve_design_loops (some []) = DEFAULT_DESIGN_LOOPS :=
  ⟨rfl, rfl, rfl, rfl⟩

end RFantibody
